import Mathlib

/-!
Verification of the mnemonic/opcode table and the upgrade instruction
registry of the `eva` repository.

The `Mnemonic` enumeration, its byte conversions and its classification
predicates are translated from `crates/asm2/src/lib.rs` (the
`define_instructions!` invocation and the `impl Mnemonic` blocks).  The
instruction type catalog mirrors the same macro invocation; the upgrade
registrations are translated from `crates/upgrades/src/eips/*.rs`.
-/

set_option maxRecDepth 10000

/-- EVM operation code mnemonic, one constructor per row of the
`define_instructions!` macro invocation in `crates/asm2/src/lib.rs`. -/
inductive Mnemonic : Type
  | STOP | ADD | MUL | SUB | DIV | SDIV | MOD | SMOD | ADDMOD | MULMOD
  | EXP | SIGNEXTEND
  | LT | GT | SLT | SGT | EQ | ISZERO | AND | OR | XOR | NOT | BYTE
  | SHL | SHR | SAR
  | KECCAK256
  | ADDRESS | BALANCE | ORIGIN | CALLER | CALLVALUE | CALLDATALOAD
  | CALLDATASIZE | CALLDATACOPY | CODESIZE | CODECOPY | GASPRICE
  | EXTCODESIZE | EXTCODECOPY | RETURNDATASIZE | RETURNDATACOPY | EXTCODEHASH
  | BLOCKHASH | COINBASE | TIMESTAMP | NUMBER | PREVRANDAO | GASLIMIT
  | CHAINID | SELFBALANCE | BASEFEE | BLOBHASH | BLOBBASEFEE
  | POP | MLOAD | MSTORE | MSTORE8 | SLOAD | SSTORE | JUMP | JUMPI | PC
  | MSIZE | GAS | JUMPDEST | TLOAD | TSTORE | MCOPY
  | PUSH0 | PUSH1 | PUSH2 | PUSH3 | PUSH4 | PUSH5 | PUSH6 | PUSH7 | PUSH8
  | PUSH9 | PUSH10 | PUSH11 | PUSH12 | PUSH13 | PUSH14 | PUSH15 | PUSH16
  | PUSH17 | PUSH18 | PUSH19 | PUSH20 | PUSH21 | PUSH22 | PUSH23 | PUSH24
  | PUSH25 | PUSH26 | PUSH27 | PUSH28 | PUSH29 | PUSH30 | PUSH31 | PUSH32
  | DUP1 | DUP2 | DUP3 | DUP4 | DUP5 | DUP6 | DUP7 | DUP8
  | DUP9 | DUP10 | DUP11 | DUP12 | DUP13 | DUP14 | DUP15 | DUP16
  | SWAP1 | SWAP2 | SWAP3 | SWAP4 | SWAP5 | SWAP6 | SWAP7 | SWAP8
  | SWAP9 | SWAP10 | SWAP11 | SWAP12 | SWAP13 | SWAP14 | SWAP15 | SWAP16
  | LOG0 | LOG1 | LOG2 | LOG3 | LOG4
  | CREATE | CALL | CALLCODE | RETURN | DELEGATECALL | CREATE2
  | STATICCALL | REVERT | INVALID | SELFDESTRUCT
  deriving DecidableEq, Repr, Fintype

namespace Mnemonic

/-- Converts a mnemonic into its byte representation (`Mnemonic::into_byte`,
the `#[repr(u8)]` discriminant of each variant). -/
def into_byte : Mnemonic → Nat
  | .STOP => 0x00 | .ADD => 0x01 | .MUL => 0x02 | .SUB => 0x03
  | .DIV => 0x04 | .SDIV => 0x05 | .MOD => 0x06 | .SMOD => 0x07
  | .ADDMOD => 0x08 | .MULMOD => 0x09 | .EXP => 0x0A | .SIGNEXTEND => 0x0B
  | .LT => 0x10 | .GT => 0x11 | .SLT => 0x12 | .SGT => 0x13
  | .EQ => 0x14 | .ISZERO => 0x15 | .AND => 0x16 | .OR => 0x17
  | .XOR => 0x18 | .NOT => 0x19 | .BYTE => 0x1A | .SHL => 0x1B
  | .SHR => 0x1C | .SAR => 0x1D
  | .KECCAK256 => 0x20
  | .ADDRESS => 0x30 | .BALANCE => 0x31 | .ORIGIN => 0x32 | .CALLER => 0x33
  | .CALLVALUE => 0x34 | .CALLDATALOAD => 0x35 | .CALLDATASIZE => 0x36
  | .CALLDATACOPY => 0x37 | .CODESIZE => 0x38 | .CODECOPY => 0x39
  | .GASPRICE => 0x3A | .EXTCODESIZE => 0x3B | .EXTCODECOPY => 0x3C
  | .RETURNDATASIZE => 0x3D | .RETURNDATACOPY => 0x3E | .EXTCODEHASH => 0x3F
  | .BLOCKHASH => 0x40 | .COINBASE => 0x41 | .TIMESTAMP => 0x42
  | .NUMBER => 0x43 | .PREVRANDAO => 0x44 | .GASLIMIT => 0x45
  | .CHAINID => 0x46 | .SELFBALANCE => 0x47 | .BASEFEE => 0x48
  | .BLOBHASH => 0x49 | .BLOBBASEFEE => 0x4A
  | .POP => 0x50 | .MLOAD => 0x51 | .MSTORE => 0x52 | .MSTORE8 => 0x53
  | .SLOAD => 0x54 | .SSTORE => 0x55 | .JUMP => 0x56 | .JUMPI => 0x57
  | .PC => 0x58 | .MSIZE => 0x59 | .GAS => 0x5A | .JUMPDEST => 0x5B
  | .TLOAD => 0x5C | .TSTORE => 0x5D | .MCOPY => 0x5E
  | .PUSH0 => 0x5F | .PUSH1 => 0x60 | .PUSH2 => 0x61 | .PUSH3 => 0x62
  | .PUSH4 => 0x63 | .PUSH5 => 0x64 | .PUSH6 => 0x65 | .PUSH7 => 0x66
  | .PUSH8 => 0x67 | .PUSH9 => 0x68 | .PUSH10 => 0x69 | .PUSH11 => 0x6A
  | .PUSH12 => 0x6B | .PUSH13 => 0x6C | .PUSH14 => 0x6D | .PUSH15 => 0x6E
  | .PUSH16 => 0x6F | .PUSH17 => 0x70 | .PUSH18 => 0x71 | .PUSH19 => 0x72
  | .PUSH20 => 0x73 | .PUSH21 => 0x74 | .PUSH22 => 0x75 | .PUSH23 => 0x76
  | .PUSH24 => 0x77 | .PUSH25 => 0x78 | .PUSH26 => 0x79 | .PUSH27 => 0x7A
  | .PUSH28 => 0x7B | .PUSH29 => 0x7C | .PUSH30 => 0x7D | .PUSH31 => 0x7E
  | .PUSH32 => 0x7F
  | .DUP1 => 0x80 | .DUP2 => 0x81 | .DUP3 => 0x82 | .DUP4 => 0x83
  | .DUP5 => 0x84 | .DUP6 => 0x85 | .DUP7 => 0x86 | .DUP8 => 0x87
  | .DUP9 => 0x88 | .DUP10 => 0x89 | .DUP11 => 0x8A | .DUP12 => 0x8B
  | .DUP13 => 0x8C | .DUP14 => 0x8D | .DUP15 => 0x8E | .DUP16 => 0x8F
  | .SWAP1 => 0x90 | .SWAP2 => 0x91 | .SWAP3 => 0x92 | .SWAP4 => 0x93
  | .SWAP5 => 0x94 | .SWAP6 => 0x95 | .SWAP7 => 0x96 | .SWAP8 => 0x97
  | .SWAP9 => 0x98 | .SWAP10 => 0x99 | .SWAP11 => 0x9A | .SWAP12 => 0x9B
  | .SWAP13 => 0x9C | .SWAP14 => 0x9D | .SWAP15 => 0x9E | .SWAP16 => 0x9F
  | .LOG0 => 0xA0 | .LOG1 => 0xA1 | .LOG2 => 0xA2 | .LOG3 => 0xA3
  | .LOG4 => 0xA4
  | .CREATE => 0xF0 | .CALL => 0xF1 | .CALLCODE => 0xF2 | .RETURN => 0xF3
  | .DELEGATECALL => 0xF4 | .CREATE2 => 0xF5 | .STATICCALL => 0xFA
  | .REVERT => 0xFD | .INVALID => 0xFE | .SELFDESTRUCT => 0xFF

/-- The byte-to-mnemonic arms of the `from_byte` match, one pair per arm
and in the same order as the source. -/
def from_byte_arms : List (Nat × Mnemonic) :=
  [(0x00, .STOP), (0x01, .ADD), (0x02, .MUL), (0x03, .SUB), (0x04, .DIV), (0x05, .SDIV), (0x06, .MOD), (0x07, .SMOD), (0x08, .ADDMOD), (0x09, .MULMOD), (0x0A, .EXP), (0x0B, .SIGNEXTEND), (0x10, .LT), (0x11, .GT), (0x12, .SLT), (0x13, .SGT), (0x14, .EQ), (0x15, .ISZERO), (0x16, .AND), (0x17, .OR), (0x18, .XOR), (0x19, .NOT), (0x1A, .BYTE), (0x1B, .SHL)] ++
  [(0x1C, .SHR), (0x1D, .SAR), (0x20, .KECCAK256), (0x30, .ADDRESS), (0x31, .BALANCE), (0x32, .ORIGIN), (0x33, .CALLER), (0x34, .CALLVALUE), (0x35, .CALLDATALOAD), (0x36, .CALLDATASIZE), (0x37, .CALLDATACOPY), (0x38, .CODESIZE), (0x39, .CODECOPY), (0x3A, .GASPRICE), (0x3B, .EXTCODESIZE), (0x3C, .EXTCODECOPY), (0x3D, .RETURNDATASIZE), (0x3E, .RETURNDATACOPY), (0x3F, .EXTCODEHASH), (0x40, .BLOCKHASH), (0x41, .COINBASE), (0x42, .TIMESTAMP), (0x43, .NUMBER), (0x44, .PREVRANDAO)] ++
  [(0x45, .GASLIMIT), (0x46, .CHAINID), (0x47, .SELFBALANCE), (0x48, .BASEFEE), (0x49, .BLOBHASH), (0x4A, .BLOBBASEFEE), (0x50, .POP), (0x51, .MLOAD), (0x52, .MSTORE), (0x53, .MSTORE8), (0x54, .SLOAD), (0x55, .SSTORE), (0x56, .JUMP), (0x57, .JUMPI), (0x58, .PC), (0x59, .MSIZE), (0x5A, .GAS), (0x5B, .JUMPDEST), (0x5C, .TLOAD), (0x5D, .TSTORE), (0x5E, .MCOPY), (0x5F, .PUSH0), (0x60, .PUSH1), (0x61, .PUSH2)] ++
  [(0x62, .PUSH3), (0x63, .PUSH4), (0x64, .PUSH5), (0x65, .PUSH6), (0x66, .PUSH7), (0x67, .PUSH8), (0x68, .PUSH9), (0x69, .PUSH10), (0x6A, .PUSH11), (0x6B, .PUSH12), (0x6C, .PUSH13), (0x6D, .PUSH14), (0x6E, .PUSH15), (0x6F, .PUSH16), (0x70, .PUSH17), (0x71, .PUSH18), (0x72, .PUSH19), (0x73, .PUSH20), (0x74, .PUSH21), (0x75, .PUSH22), (0x76, .PUSH23), (0x77, .PUSH24), (0x78, .PUSH25), (0x79, .PUSH26)] ++
  [(0x7A, .PUSH27), (0x7B, .PUSH28), (0x7C, .PUSH29), (0x7D, .PUSH30), (0x7E, .PUSH31), (0x7F, .PUSH32), (0x80, .DUP1), (0x81, .DUP2), (0x82, .DUP3), (0x83, .DUP4), (0x84, .DUP5), (0x85, .DUP6), (0x86, .DUP7), (0x87, .DUP8), (0x88, .DUP9), (0x89, .DUP10), (0x8A, .DUP11), (0x8B, .DUP12), (0x8C, .DUP13), (0x8D, .DUP14), (0x8E, .DUP15), (0x8F, .DUP16), (0x90, .SWAP1), (0x91, .SWAP2)] ++
  [(0x92, .SWAP3), (0x93, .SWAP4), (0x94, .SWAP5), (0x95, .SWAP6), (0x96, .SWAP7), (0x97, .SWAP8), (0x98, .SWAP9), (0x99, .SWAP10), (0x9A, .SWAP11), (0x9B, .SWAP12), (0x9C, .SWAP13), (0x9D, .SWAP14), (0x9E, .SWAP15), (0x9F, .SWAP16), (0xA0, .LOG0), (0xA1, .LOG1), (0xA2, .LOG2), (0xA3, .LOG3), (0xA4, .LOG4), (0xF0, .CREATE), (0xF1, .CALL), (0xF2, .CALLCODE), (0xF3, .RETURN), (0xF4, .DELEGATECALL)] ++
  [(0xF5, .CREATE2), (0xFA, .STATICCALL), (0xFD, .REVERT), (0xFE, .INVALID), (0xFF, .SELFDESTRUCT)]

/-- Attempts to parse a byte as a mnemonic (`Mnemonic::from_byte`); `none`
when the byte matches no arm.  The source is a `match` on byte literals
with a `_ => None` default; it is embedded as first-match lookup over the
arm table, which agrees with the match since the arm bytes are distinct. -/
def from_byte (b : Nat) : Option Mnemonic :=
  (from_byte_arms.find? (fun a => a.1 == b)).map (·.2)

/-- A list of all mnemonic variants in declaration order
(`Mnemonic::VARIANTS`). -/
def VARIANTS : List Mnemonic :=
  [.STOP, .ADD, .MUL, .SUB, .DIV, .SDIV, .MOD, .SMOD, .ADDMOD, .MULMOD, .EXP, .SIGNEXTEND, .LT, .GT, .SLT, .SGT, .EQ, .ISZERO, .AND, .OR, .XOR, .NOT, .BYTE, .SHL] ++
  [.SHR, .SAR, .KECCAK256, .ADDRESS, .BALANCE, .ORIGIN, .CALLER, .CALLVALUE, .CALLDATALOAD, .CALLDATASIZE, .CALLDATACOPY, .CODESIZE, .CODECOPY, .GASPRICE, .EXTCODESIZE, .EXTCODECOPY, .RETURNDATASIZE, .RETURNDATACOPY, .EXTCODEHASH, .BLOCKHASH, .COINBASE, .TIMESTAMP, .NUMBER, .PREVRANDAO] ++
  [.GASLIMIT, .CHAINID, .SELFBALANCE, .BASEFEE, .BLOBHASH, .BLOBBASEFEE, .POP, .MLOAD, .MSTORE, .MSTORE8, .SLOAD, .SSTORE, .JUMP, .JUMPI, .PC, .MSIZE, .GAS, .JUMPDEST, .TLOAD, .TSTORE, .MCOPY, .PUSH0, .PUSH1, .PUSH2] ++
  [.PUSH3, .PUSH4, .PUSH5, .PUSH6, .PUSH7, .PUSH8, .PUSH9, .PUSH10, .PUSH11, .PUSH12, .PUSH13, .PUSH14, .PUSH15, .PUSH16, .PUSH17, .PUSH18, .PUSH19, .PUSH20, .PUSH21, .PUSH22, .PUSH23, .PUSH24, .PUSH25, .PUSH26] ++
  [.PUSH27, .PUSH28, .PUSH29, .PUSH30, .PUSH31, .PUSH32, .DUP1, .DUP2, .DUP3, .DUP4, .DUP5, .DUP6, .DUP7, .DUP8, .DUP9, .DUP10, .DUP11, .DUP12, .DUP13, .DUP14, .DUP15, .DUP16, .SWAP1, .SWAP2] ++
  [.SWAP3, .SWAP4, .SWAP5, .SWAP6, .SWAP7, .SWAP8, .SWAP9, .SWAP10, .SWAP11, .SWAP12, .SWAP13, .SWAP14, .SWAP15, .SWAP16, .LOG0, .LOG1, .LOG2, .LOG3, .LOG4, .CREATE, .CALL, .CALLCODE, .RETURN, .DELEGATECALL] ++
  [.CREATE2, .STATICCALL, .REVERT, .INVALID, .SELFDESTRUCT]

/-- `Mnemonic::is_push`: true iff the mnemonic is of the type `PUSHx`. -/
def is_push : Mnemonic → Bool
  | .PUSH0 | .PUSH1 | .PUSH2 | .PUSH3 | .PUSH4 | .PUSH5 | .PUSH6 | .PUSH7
  | .PUSH8 | .PUSH9 | .PUSH10 | .PUSH11 | .PUSH12 | .PUSH13 | .PUSH14
  | .PUSH15 | .PUSH16 | .PUSH17 | .PUSH18 | .PUSH19 | .PUSH20 | .PUSH21
  | .PUSH22 | .PUSH23 | .PUSH24 | .PUSH25 | .PUSH26 | .PUSH27 | .PUSH28
  | .PUSH29 | .PUSH30 | .PUSH31 | .PUSH32 => true
  | _ => false

/-- `Mnemonic::is_dup`: true iff the mnemonic is of the type `DUPx`. -/
def is_dup : Mnemonic → Bool
  | .DUP1 | .DUP2 | .DUP3 | .DUP4 | .DUP5 | .DUP6 | .DUP7 | .DUP8
  | .DUP9 | .DUP10 | .DUP11 | .DUP12 | .DUP13 | .DUP14 | .DUP15
  | .DUP16 => true
  | _ => false

/-- `Mnemonic::is_swap`: true iff the mnemonic is of the type `SWAPx`. -/
def is_swap : Mnemonic → Bool
  | .SWAP1 | .SWAP2 | .SWAP3 | .SWAP4 | .SWAP5 | .SWAP6 | .SWAP7 | .SWAP8
  | .SWAP9 | .SWAP10 | .SWAP11 | .SWAP12 | .SWAP13 | .SWAP14 | .SWAP15
  | .SWAP16 => true
  | _ => false

/-- `Mnemonic::is_log`: true iff the mnemonic is of the type `LOGx`. -/
def is_log : Mnemonic → Bool
  | .LOG0 | .LOG1 | .LOG2 | .LOG3 | .LOG4 => true
  | _ => false

/-- `Mnemonic::is_terminator`: true iff the mnemonic terminates execution
of the smart contract. -/
def is_terminator : Mnemonic → Bool
  | .STOP | .RETURN | .REVERT | .INVALID | .SELFDESTRUCT => true
  | _ => false

/-- `Mnemonic::is_control_flow`: true iff the mnemonic is a `JUMP`,
`JUMPI` or a `JUMPDEST`. -/
def is_control_flow : Mnemonic → Bool
  | .JUMP | .JUMPI | .JUMPDEST => true
  | _ => false

end Mnemonic



/-- The fixed (width-free) instruction structs of the `define_instructions!`
invocation, one constructor per non-family row, in row order. -/
inductive FixedInstruction : Type
  | Stop | Add | Mul | Sub | Div | SDiv | Mod | SMod
  | AddMod | MulMod | Exp | SignExtend | Lt | Gt | SLt | SGt
  | Eq | IsZero | And | Or | Xor | Not | Byte | Shl
  | Shr | Sar | Keccak256 | Address | Balance | Origin | Caller | CallValue
  | CallDataLoad | CallDataSize | CallDataCopy | CodeSize | CodeCopy | GasPrice | ExtCodeSize | ExtCodeCopy
  | ReturnDataSize | ReturnDataCopy | ExtCodeHash | BlockHash | CoinBase | Timestamp | Number | PrevRandao
  | GasLimit | ChainId | SelfBalance | BaseFee | BlobHash | BlobBaseFee | Pop | MLoad
  | MStore | MStore8 | SLoad | SStore | Jump | JumpI | Pc | MSize
  | Gas | JumpDest | TLoad | TStore | MCopy | Create | Call | CallCode
  | Return | DelegateCall | Create2 | StaticCall | Revert | Invalid | SelfDestruct
  deriving DecidableEq, Repr, Fintype

/-- An instruction type identity: a fixed instruction struct, a member of
one of the four width-parametrized families (`Push<N>`, `Dup<N>`,
`Swap<N>`, `Log<N>` — the width is the construction-time parameter `N`),
or the `Unknown` catch-all of the `asm` instruction module, which
`introduces_instructions!(Genesis, ...)` names last. -/
inductive InstructionType : Type
  | Fixed (f : FixedInstruction)
  | Push (n : Nat)
  | Dup (n : Nat)
  | Swap (n : Nat)
  | Log (n : Nat)
  | Unknown
  deriving DecidableEq, Repr

/-- The mnemonic of a fixed instruction struct, from its
`define_instructions!` row. -/
def FixedInstruction.mnemonic : FixedInstruction → Mnemonic
  | .Stop => .STOP
  | .Add => .ADD
  | .Mul => .MUL
  | .Sub => .SUB
  | .Div => .DIV
  | .SDiv => .SDIV
  | .Mod => .MOD
  | .SMod => .SMOD
  | .AddMod => .ADDMOD
  | .MulMod => .MULMOD
  | .Exp => .EXP
  | .SignExtend => .SIGNEXTEND
  | .Lt => .LT
  | .Gt => .GT
  | .SLt => .SLT
  | .SGt => .SGT
  | .Eq => .EQ
  | .IsZero => .ISZERO
  | .And => .AND
  | .Or => .OR
  | .Xor => .XOR
  | .Not => .NOT
  | .Byte => .BYTE
  | .Shl => .SHL
  | .Shr => .SHR
  | .Sar => .SAR
  | .Keccak256 => .KECCAK256
  | .Address => .ADDRESS
  | .Balance => .BALANCE
  | .Origin => .ORIGIN
  | .Caller => .CALLER
  | .CallValue => .CALLVALUE
  | .CallDataLoad => .CALLDATALOAD
  | .CallDataSize => .CALLDATASIZE
  | .CallDataCopy => .CALLDATACOPY
  | .CodeSize => .CODESIZE
  | .CodeCopy => .CODECOPY
  | .GasPrice => .GASPRICE
  | .ExtCodeSize => .EXTCODESIZE
  | .ExtCodeCopy => .EXTCODECOPY
  | .ReturnDataSize => .RETURNDATASIZE
  | .ReturnDataCopy => .RETURNDATACOPY
  | .ExtCodeHash => .EXTCODEHASH
  | .BlockHash => .BLOCKHASH
  | .CoinBase => .COINBASE
  | .Timestamp => .TIMESTAMP
  | .Number => .NUMBER
  | .PrevRandao => .PREVRANDAO
  | .GasLimit => .GASLIMIT
  | .ChainId => .CHAINID
  | .SelfBalance => .SELFBALANCE
  | .BaseFee => .BASEFEE
  | .BlobHash => .BLOBHASH
  | .BlobBaseFee => .BLOBBASEFEE
  | .Pop => .POP
  | .MLoad => .MLOAD
  | .MStore => .MSTORE
  | .MStore8 => .MSTORE8
  | .SLoad => .SLOAD
  | .SStore => .SSTORE
  | .Jump => .JUMP
  | .JumpI => .JUMPI
  | .Pc => .PC
  | .MSize => .MSIZE
  | .Gas => .GAS
  | .JumpDest => .JUMPDEST
  | .TLoad => .TLOAD
  | .TStore => .TSTORE
  | .MCopy => .MCOPY
  | .Create => .CREATE
  | .Call => .CALL
  | .CallCode => .CALLCODE
  | .Return => .RETURN
  | .DelegateCall => .DELEGATECALL
  | .Create2 => .CREATE2
  | .StaticCall => .STATICCALL
  | .Revert => .REVERT
  | .Invalid => .INVALID
  | .SelfDestruct => .SELFDESTRUCT

namespace InstructionType

/-- The `PUSHx` mnemonics bound to the push family in width order: the row
`PUSHk, Pushk, Push<k>` binds width `k` to `PUSHk`. -/
def pushMnemonics : List Mnemonic :=
  [.PUSH0, .PUSH1, .PUSH2, .PUSH3, .PUSH4, .PUSH5, .PUSH6, .PUSH7, .PUSH8, .PUSH9, .PUSH10, .PUSH11, .PUSH12, .PUSH13, .PUSH14, .PUSH15, .PUSH16] ++
  [.PUSH17, .PUSH18, .PUSH19, .PUSH20, .PUSH21, .PUSH22, .PUSH23, .PUSH24, .PUSH25, .PUSH26, .PUSH27, .PUSH28, .PUSH29, .PUSH30, .PUSH31, .PUSH32]

/-- The `DUPx` mnemonics bound to the duplicate family in width order: the
row `DUPk, Dupk, Dup<k>` binds width `k` to `DUPk`. -/
def dupMnemonics : List Mnemonic :=
  [.DUP1, .DUP2, .DUP3, .DUP4, .DUP5, .DUP6, .DUP7, .DUP8, .DUP9, .DUP10, .DUP11, .DUP12, .DUP13, .DUP14, .DUP15, .DUP16]

/-- The `SWAPx` mnemonics bound to the swap family in width order: the row
`SWAPk, Swapk, Swap<k>` binds width `k` to `SWAPk`. -/
def swapMnemonics : List Mnemonic :=
  [.SWAP1, .SWAP2, .SWAP3, .SWAP4, .SWAP5, .SWAP6, .SWAP7, .SWAP8, .SWAP9, .SWAP10, .SWAP11, .SWAP12, .SWAP13, .SWAP14, .SWAP15, .SWAP16]

/-- The `LOGx` mnemonics bound to the log family in width order: the row
`LOGk, Logk, Log<k>` binds width `k` to `LOGk`. -/
def logMnemonics : List Mnemonic :=
  [.LOG0, .LOG1, .LOG2, .LOG3, .LOG4]

/-- The mnemonic bound to an instruction type by its `define_instructions!`
row; `none` for a family width with no row and for the `Unknown`
catch-all, which wraps an unrecognized raw byte instead of a fixed
mnemonic. -/
def instrMnemonic : InstructionType → Option Mnemonic
  | .Fixed f => some f.mnemonic
  | .Push n => pushMnemonics[n]?
  | .Dup n => match n with | 0 => none | k + 1 => dupMnemonics[k]?
  | .Swap n => match n with | 0 => none | k + 1 => swapMnemonics[k]?
  | .Log n => logMnemonics[n]?
  | .Unknown => none

end InstructionType

/-- The full instruction type catalog: one entry per row of the
`define_instructions!` invocation, in row order. -/
def InstrCatalog : List InstructionType :=
  [(.Fixed .Stop), (.Fixed .Add), (.Fixed .Mul), (.Fixed .Sub), (.Fixed .Div), (.Fixed .SDiv), (.Fixed .Mod), (.Fixed .SMod), (.Fixed .AddMod), (.Fixed .MulMod), (.Fixed .Exp), (.Fixed .SignExtend)] ++
  [(.Fixed .Lt), (.Fixed .Gt), (.Fixed .SLt), (.Fixed .SGt), (.Fixed .Eq), (.Fixed .IsZero), (.Fixed .And), (.Fixed .Or), (.Fixed .Xor), (.Fixed .Not), (.Fixed .Byte), (.Fixed .Shl)] ++
  [(.Fixed .Shr), (.Fixed .Sar), (.Fixed .Keccak256), (.Fixed .Address), (.Fixed .Balance), (.Fixed .Origin), (.Fixed .Caller), (.Fixed .CallValue), (.Fixed .CallDataLoad), (.Fixed .CallDataSize), (.Fixed .CallDataCopy), (.Fixed .CodeSize)] ++
  [(.Fixed .CodeCopy), (.Fixed .GasPrice), (.Fixed .ExtCodeSize), (.Fixed .ExtCodeCopy), (.Fixed .ReturnDataSize), (.Fixed .ReturnDataCopy), (.Fixed .ExtCodeHash), (.Fixed .BlockHash), (.Fixed .CoinBase), (.Fixed .Timestamp), (.Fixed .Number), (.Fixed .PrevRandao)] ++
  [(.Fixed .GasLimit), (.Fixed .ChainId), (.Fixed .SelfBalance), (.Fixed .BaseFee), (.Fixed .BlobHash), (.Fixed .BlobBaseFee), (.Fixed .Pop), (.Fixed .MLoad), (.Fixed .MStore), (.Fixed .MStore8), (.Fixed .SLoad), (.Fixed .SStore)] ++
  [(.Fixed .Jump), (.Fixed .JumpI), (.Fixed .Pc), (.Fixed .MSize), (.Fixed .Gas), (.Fixed .JumpDest), (.Fixed .TLoad), (.Fixed .TStore), (.Fixed .MCopy), (.Push 0), (.Push 1), (.Push 2)] ++
  [(.Push 3), (.Push 4), (.Push 5), (.Push 6), (.Push 7), (.Push 8), (.Push 9), (.Push 10), (.Push 11), (.Push 12), (.Push 13), (.Push 14)] ++
  [(.Push 15), (.Push 16), (.Push 17), (.Push 18), (.Push 19), (.Push 20), (.Push 21), (.Push 22), (.Push 23), (.Push 24), (.Push 25), (.Push 26)] ++
  [(.Push 27), (.Push 28), (.Push 29), (.Push 30), (.Push 31), (.Push 32), (.Dup 1), (.Dup 2), (.Dup 3), (.Dup 4), (.Dup 5), (.Dup 6)] ++
  [(.Dup 7), (.Dup 8), (.Dup 9), (.Dup 10), (.Dup 11), (.Dup 12), (.Dup 13), (.Dup 14), (.Dup 15), (.Dup 16), (.Swap 1), (.Swap 2)] ++
  [(.Swap 3), (.Swap 4), (.Swap 5), (.Swap 6), (.Swap 7), (.Swap 8), (.Swap 9), (.Swap 10), (.Swap 11), (.Swap 12), (.Swap 13), (.Swap 14)] ++
  [(.Swap 15), (.Swap 16), (.Log 0), (.Log 1), (.Log 2), (.Log 3), (.Log 4), (.Fixed .Create), (.Fixed .Call), (.Fixed .CallCode), (.Fixed .Return), (.Fixed .DelegateCall)] ++
  [(.Fixed .Create2), (.Fixed .StaticCall), (.Fixed .Revert), (.Fixed .Invalid), (.Fixed .SelfDestruct)]

/-- An upgrade: an `Eip` implementor's `NUMBER` together with the
instruction list declared by its `introduces_instructions!` invocation
(empty when the eip declares none). -/
structure Upgrade where
  number : Nat
  introduces : List InstructionType
  deriving DecidableEq, Repr

/-- `Genesis` (`eips/genesis.rs`): `NUMBER = 0`, introducing the list of
the `introduces_instructions!(Genesis, ...)` invocation. -/
def Genesis : Upgrade :=
  ⟨0,
   [(.Fixed .Stop), (.Fixed .Add), (.Fixed .Mul), (.Fixed .Sub), (.Fixed .Div), (.Fixed .SDiv), (.Fixed .Mod), (.Fixed .SMod), (.Fixed .AddMod), (.Fixed .MulMod), (.Fixed .Exp), (.Fixed .SignExtend)] ++
   [(.Fixed .Lt), (.Fixed .Gt), (.Fixed .SLt), (.Fixed .SGt), (.Fixed .Eq), (.Fixed .IsZero), (.Fixed .And), (.Fixed .Or), (.Fixed .Xor), (.Fixed .Not), (.Fixed .Byte), (.Fixed .Keccak256)] ++
   [(.Fixed .Address), (.Fixed .Balance), (.Fixed .Origin), (.Fixed .Caller), (.Fixed .CallValue), (.Fixed .CallDataLoad), (.Fixed .CallDataSize), (.Fixed .CallDataCopy), (.Fixed .CodeSize), (.Fixed .CodeCopy), (.Fixed .GasPrice), (.Fixed .ExtCodeSize)] ++
   [(.Fixed .ExtCodeCopy), (.Fixed .BlockHash), (.Fixed .CoinBase), (.Fixed .Timestamp), (.Fixed .Number), (.Fixed .PrevRandao), (.Fixed .GasLimit), (.Fixed .Pop), (.Fixed .MLoad), (.Fixed .MStore), (.Fixed .MStore8), (.Fixed .SLoad)] ++
   [(.Fixed .SStore), (.Fixed .Jump), (.Fixed .JumpI), (.Fixed .Pc), (.Fixed .MSize), (.Fixed .Gas), (.Fixed .JumpDest), (.Push 1), (.Push 2), (.Push 3), (.Push 4), (.Push 5)] ++
   [(.Push 6), (.Push 7), (.Push 8), (.Push 9), (.Push 10), (.Push 11), (.Push 12), (.Push 13), (.Push 14), (.Push 15), (.Push 16), (.Push 17)] ++
   [(.Push 18), (.Push 19), (.Push 20), (.Push 21), (.Push 22), (.Push 23), (.Push 24), (.Push 25), (.Push 26), (.Push 27), (.Push 28), (.Push 29)] ++
   [(.Push 30), (.Push 31), (.Push 32), (.Dup 1), (.Dup 2), (.Dup 3), (.Dup 4), (.Dup 5), (.Dup 6), (.Dup 7), (.Dup 8), (.Dup 9)] ++
   [(.Dup 10), (.Dup 11), (.Dup 12), (.Dup 13), (.Dup 14), (.Dup 15), (.Dup 16), (.Swap 1), (.Swap 2), (.Swap 3), (.Swap 4), (.Swap 5)] ++
   [(.Swap 6), (.Swap 7), (.Swap 8), (.Swap 9), (.Swap 10), (.Swap 11), (.Swap 12), (.Swap 13), (.Swap 14), (.Swap 15), (.Swap 16), (.Log 0)] ++
   [(.Log 1), (.Log 2), (.Log 3), (.Log 4), (.Fixed .Create), (.Fixed .Call), (.Fixed .CallCode), (.Fixed .Return), (.Fixed .Invalid), (.Fixed .SelfDestruct), .Unknown]⟩

/-- `Eip152` (`eips/eip152.rs`): `NUMBER = 152`, no instructions. -/
def Eip152 : Upgrade := ⟨152, []⟩

/-- `Eip211` (`eips/eip211.rs`): `NUMBER = 211`, introduces
`ReturnDataSize` and `ReturnDataCopy`. -/
def Eip211 : Upgrade := ⟨211, [.Fixed .ReturnDataSize, .Fixed .ReturnDataCopy]⟩

/-- `Eip214` (`eips/eip214.rs`): `NUMBER = 214`, introduces `StaticCall`. -/
def Eip214 : Upgrade := ⟨214, [.Fixed .StaticCall]⟩

/-- `Eip2929` (`eips/eip2929.rs`): `NUMBER = 2929`, no instructions. -/
def Eip2929 : Upgrade := ⟨2929, []⟩

/-- `Eip3198` (`eips/eip3198.rs`): `NUMBER = 3198`, introduces `BaseFee`. -/
def Eip3198 : Upgrade := ⟨3198, [.Fixed .BaseFee]⟩

/-- `Eip3529` (`eips/eip3529.rs`): `NUMBER = 3529`, no instructions. -/
def Eip3529 : Upgrade := ⟨3529, []⟩

/-- `Eip3554` (`eips/eip3554.rs`): `NUMBER = 3554`, no instructions. -/
def Eip3554 : Upgrade := ⟨3554, []⟩

/-- `Eip3651` (`eips/eip3651.rs`): `NUMBER = 3651`, no instructions. -/
def Eip3651 : Upgrade := ⟨3651, []⟩

/-- `Eip3860` (`eips/eip3860.rs`): `NUMBER = 3860`, no instructions. -/
def Eip3860 : Upgrade := ⟨3860, []⟩

/-- `Eip4345` (`eips/eip4345.rs`): `NUMBER = 4345`, no instructions. -/
def Eip4345 : Upgrade := ⟨4345, []⟩

/-- `Eip4399` (`eips/eip4399.rs`): `NUMBER = 4399`, no instructions. -/
def Eip4399 : Upgrade := ⟨4399, []⟩

/-- `Eip5656` (`eips/eip5656.rs`): `NUMBER = 5656`, introduces `MCopy`. -/
def Eip5656 : Upgrade := ⟨5656, [.Fixed .MCopy]⟩

/-- `Eip6110` (`eips/eip6110.rs`): `NUMBER = 6110`, no instructions. -/
def Eip6110 : Upgrade := ⟨6110, []⟩

/-- `Eip7002` (`eips/eip7002.rs`): `NUMBER = 7002`, no instructions. -/
def Eip7002 : Upgrade := ⟨7002, []⟩

/-- `Eip7623` (`eips/eip7623.rs`): `NUMBER = 7623`, no instructions. -/
def Eip7623 : Upgrade := ⟨7623, []⟩

/-- `Eip7840` (`eips/eip7840.rs`): `NUMBER = 7840`, no instructions. -/
def Eip7840 : Upgrade := ⟨7840, []⟩

/-- Every upgrade declared in `crates/upgrades/src/eips/`, in `number`
order: `Genesis` plus each `Eip` implementor. -/
def registeredUpgrades : List Upgrade :=
  [Genesis, Eip152, Eip211, Eip214, Eip2929, Eip3198, Eip3529, Eip3554,
   Eip3651, Eip3860, Eip4345, Eip4399, Eip5656, Eip6110, Eip7002, Eip7623,
   Eip7840]

/-- Modelled from the spec: the registry query `active_as_of` of spec
section 4.4 is absent from the available sources (only the per-upgrade
`introduces` declarations are present); per the spec it returns the union
of `introduces` over every registered Upgrade whose number is at most the
query number. -/
def active_as_of (n : Nat) : List InstructionType :=
  (registeredUpgrades.filter (fun u => u.number ≤ n)).flatMap Upgrade.introduces

/-- The byte an instruction type resolves to: the byte of its bound
mnemonic, when it has one. -/
def instrByte (i : InstructionType) : Option Nat :=
  (i.instrMnemonic).map Mnemonic.into_byte

/-- Modelled from the spec: the derived query `opcode_table_as_of` of spec
section 4.4 is absent from the available sources; per the spec it maps a
byte to the instruction type active as of the given upgrade number that
resolves to that byte, and is "not present" for a byte with no active
assignment. -/
def opcode_table_as_of (n : Nat) (b : Nat) : Option InstructionType :=
  (active_as_of n).find? (fun i => instrByte i == some b)

/-- Bounds check used to reason about family widths appearing in the
catalog: a fixed instruction always passes; a family member passes iff its
width lies in the range its catalog rows span. -/
def familyWidthOK : InstructionType → Bool
  | .Fixed _ => true
  | .Push n => decide (n ≤ 32)
  | .Dup n => decide (1 ≤ n ∧ n ≤ 16)
  | .Swap n => decide (1 ≤ n ∧ n ≤ 16)
  | .Log n => decide (n ≤ 4)
  | .Unknown => true

theorem catalog_familyWidthOK : InstrCatalog.all familyWidthOK = true := by decide

theorem mem_catalog_push_le {n : Nat} (h : InstructionType.Push n ∈ InstrCatalog) :
    n ≤ 32 := by
  have := List.all_eq_true.mp catalog_familyWidthOK _ h
  simpa [familyWidthOK] using this

theorem mem_catalog_dup_range {n : Nat} (h : InstructionType.Dup n ∈ InstrCatalog) :
    1 ≤ n ∧ n ≤ 16 := by
  have := List.all_eq_true.mp catalog_familyWidthOK _ h
  simpa [familyWidthOK] using this

theorem mem_catalog_swap_range {n : Nat} (h : InstructionType.Swap n ∈ InstrCatalog) :
    1 ≤ n ∧ n ≤ 16 := by
  have := List.all_eq_true.mp catalog_familyWidthOK _ h
  simpa [familyWidthOK] using this

theorem mem_catalog_log_le {n : Nat} (h : InstructionType.Log n ∈ InstrCatalog) :
    n ≤ 4 := by
  have := List.all_eq_true.mp catalog_familyWidthOK _ h
  simpa [familyWidthOK] using this
/-- Claim C1, counterexample: the claimed partition fails on the code —
the catalog member `Revert` (mnemonic `REVERT`, byte `0xFD`) is introduced
by no registered upgrade, so the union of `introduces` over all registered
upgrades is not the full catalog; moreover `Genesis` introduces the
`Unknown` catch-all, which has no `define_instructions!` row. -/
theorem catalog_not_covered_by_upgrades :
    InstructionType.Fixed .Revert ∈ InstrCatalog ∧
      (∀ u ∈ registeredUpgrades, InstructionType.Fixed .Revert ∉ u.introduces) ∧
      InstructionType.Unknown ∈ Genesis.introduces ∧
      InstructionType.Unknown ∉ InstrCatalog := by
  refine ⟨by decide, by decide, by decide, by decide⟩

/-- Claim C1, amended: the `introduces` lists of the registered upgrades
are duplicate-free and pairwise disjoint — every instruction type is
introduced by at most one upgrade, at most once — but their union does not
equal the catalog. -/
theorem upgrades_introduce_at_most_once :
    (∀ u ∈ registeredUpgrades, u.introduces.Nodup) ∧
      List.Pairwise (fun u v => ∀ x ∈ u.introduces, x ∉ v.introduces)
        registeredUpgrades := by
  refine ⟨by decide, by decide⟩

set_option maxHeartbeats 4000000 in
/-- Claim C2: `from_byte` and `into_byte` are mutually inverse — for every
byte, a successful parse round-trips back to that byte, and every mnemonic
round-trips through its byte back to itself. -/
theorem from_byte_into_byte_inverse :
    (∀ b : Fin 256, ∀ m : Mnemonic,
        Mnemonic.from_byte b.val = some m → Mnemonic.into_byte m = b.val) ∧
      (∀ m : Mnemonic, Mnemonic.from_byte (Mnemonic.into_byte m) = some m) := by
  refine ⟨by decide, by decide⟩

/-- Witness for C2 at the concrete byte `0x5A` and mnemonic `GAS`. -/
theorem from_byte_into_byte_inverse_witness :
    Mnemonic.from_byte 0x5A = some Mnemonic.GAS ∧
      Mnemonic.into_byte Mnemonic.GAS = 0x5A ∧
      Mnemonic.from_byte (Mnemonic.into_byte Mnemonic.GAS) = some Mnemonic.GAS :=
  ⟨by decide, from_byte_into_byte_inverse.1 ⟨0x5A, by decide⟩ Mnemonic.GAS (by decide),
    from_byte_into_byte_inverse.2 Mnemonic.GAS⟩

/-- Claim C3, counterexample: the push family is not indexed by widths 1
to 32 — the catalog contains `Push<0>` (row `PUSH0`, byte `0x5F`), a push
member of width 0, and its mnemonic is classified push-family. -/
theorem push_zero_in_catalog :
    InstructionType.Push 0 ∈ InstrCatalog ∧
      Mnemonic.is_push Mnemonic.PUSH0 = true ∧ ¬(1 ≤ 0) := by
  refine ⟨by decide, by decide, by decide⟩

/-- Claim C3, amended: the parametrized families comprise exactly the
widths 0 to 32 for push (the claimed 1 to 32 misses `Push<0>`), 1 to 16
for duplicate and swap, and 0 to 4 for log; no family member exists in the
catalog for a width outside these ranges. -/
theorem family_width_ranges (n : Nat) :
    (InstructionType.Push n ∈ InstrCatalog ↔ n ≤ 32) ∧
      (InstructionType.Dup n ∈ InstrCatalog ↔ 1 ≤ n ∧ n ≤ 16) ∧
      (InstructionType.Swap n ∈ InstrCatalog ↔ 1 ≤ n ∧ n ≤ 16) ∧
      (InstructionType.Log n ∈ InstrCatalog ↔ n ≤ 4) := by
  refine ⟨⟨fun h => mem_catalog_push_le h, fun h => ?_⟩,
    ⟨fun h => mem_catalog_dup_range h, fun h => ?_⟩,
    ⟨fun h => mem_catalog_swap_range h, fun h => ?_⟩,
    ⟨fun h => mem_catalog_log_le h, fun h => ?_⟩⟩
  · interval_cases n <;> decide
  · obtain ⟨h1, h2⟩ := h
    interval_cases n <;> decide
  · obtain ⟨h1, h2⟩ := h
    interval_cases n <;> decide
  · interval_cases n <;> decide

/-- Witness for C3 at the concrete width 7: `Push<7>` is in the catalog. -/
theorem family_width_ranges_witness :
    (7 ≤ 32 ∧ InstructionType.Push 7 ∈ InstrCatalog) ∧
      (1 ≤ 7 ∧ 7 ≤ 16) ∧ InstructionType.Dup 7 ∈ InstrCatalog :=
  ⟨⟨by decide, (family_width_ranges 7).1.mpr (by decide)⟩,
    ⟨by decide, by decide⟩, (family_width_ranges 7).2.1.mpr (by decide)⟩
/-- Claim C4: activation is monotone — for upgrade numbers `n1 ≤ n2`,
every instruction type active as of `n1` is active as of `n2`. -/
theorem active_as_of_monotone (n1 n2 : Nat) (h : n1 ≤ n2) :
    ∀ x ∈ active_as_of n1, x ∈ active_as_of n2 := by
  intro x hx
  simp only [active_as_of, List.mem_flatMap, List.mem_filter,
    decide_eq_true_eq] at hx ⊢
  obtain ⟨u, ⟨hu, hle⟩, hxu⟩ := hx
  exact ⟨u, ⟨hu, le_trans hle h⟩, hxu⟩

/-- Witness for C4 at the concrete pair `0 ≤ 3198` and the `Stop`
instruction, active from genesis. -/
theorem active_as_of_monotone_witness :
    (0 ≤ 3198 ∧ InstructionType.Fixed .Stop ∈ active_as_of 0) ∧
      InstructionType.Fixed .Stop ∈ active_as_of 3198 :=
  ⟨⟨by decide, by decide⟩,
    active_as_of_monotone 0 3198 (by decide) _ (by decide)⟩

/-- Claim C5: `active_as_of 0` contains the halt, arithmetic and basic
control-flow instructions but not `BaseFee`; `active_as_of 3198` contains
`BaseFee`, which the upgrade numbered 3198 introduces. -/
theorem genesis_and_basefee_active_sets :
    InstructionType.Fixed .Stop ∈ active_as_of 0 ∧
      InstructionType.Fixed .Add ∈ active_as_of 0 ∧
      InstructionType.Fixed .Mul ∈ active_as_of 0 ∧
      InstructionType.Fixed .Sub ∈ active_as_of 0 ∧
      InstructionType.Fixed .Div ∈ active_as_of 0 ∧
      InstructionType.Fixed .Jump ∈ active_as_of 0 ∧
      InstructionType.Fixed .JumpI ∈ active_as_of 0 ∧
      InstructionType.Fixed .JumpDest ∈ active_as_of 0 ∧
      InstructionType.Fixed .BaseFee ∉ active_as_of 0 ∧
      InstructionType.Fixed .BaseFee ∈ active_as_of 3198 ∧
      Eip3198.number = 3198 ∧
      InstructionType.Fixed .BaseFee ∈ Eip3198.introduces := by
  refine ⟨by decide, by decide, by decide, by decide, by decide, by decide,
    by decide, by decide, by decide, by decide, by decide, by decide⟩

/-- Claim C6: within each parametrized family the assigned byte is
contiguous and monotonic in the width — the byte of `Push<k>` plus one is
the byte of `Push<k+1>` for all consecutive catalog widths, and likewise
for the duplicate, swap and log families. -/
theorem family_byte_contiguity :
    (∀ k : Fin 32,
        (instrByte (.Push k.val)).map (· + 1) = instrByte (.Push (k.val + 1))) ∧
      (∀ k : Fin 15,
        (instrByte (.Dup (k.val + 1))).map (· + 1) =
          instrByte (.Dup (k.val + 2))) ∧
      (∀ k : Fin 15,
        (instrByte (.Swap (k.val + 1))).map (· + 1) =
          instrByte (.Swap (k.val + 2))) ∧
      (∀ k : Fin 4,
        (instrByte (.Log k.val)).map (· + 1) = instrByte (.Log (k.val + 1))) := by
  refine ⟨by decide, by decide, by decide, by decide⟩

/-- Witness for C6 at concrete widths: push at 7, duplicate at 3. -/
theorem family_byte_contiguity_witness :
    (instrByte (.Push 7)).map (· + 1) = instrByte (.Push 8) ∧
      (instrByte (.Dup 4)).map (· + 1) = instrByte (.Dup 5) :=
  ⟨family_byte_contiguity.1 ⟨7, by decide⟩,
    family_byte_contiguity.2.1 ⟨3, by decide⟩⟩

/-- Claim C7: the classification predicates `is_push`, `is_dup`,
`is_swap`, `is_log`, `is_terminator` and `is_control_flow` accept pairwise
disjoint sets of mnemonics: no mnemonic satisfies two of them. -/
theorem classification_pairwise_disjoint (m : Mnemonic) :
    ¬(m.is_push = true ∧ m.is_dup = true) ∧
      ¬(m.is_push = true ∧ m.is_swap = true) ∧
      ¬(m.is_push = true ∧ m.is_log = true) ∧
      ¬(m.is_push = true ∧ m.is_terminator = true) ∧
      ¬(m.is_push = true ∧ m.is_control_flow = true) ∧
      ¬(m.is_dup = true ∧ m.is_swap = true) ∧
      ¬(m.is_dup = true ∧ m.is_log = true) ∧
      ¬(m.is_dup = true ∧ m.is_terminator = true) ∧
      ¬(m.is_dup = true ∧ m.is_control_flow = true) ∧
      ¬(m.is_swap = true ∧ m.is_log = true) ∧
      ¬(m.is_swap = true ∧ m.is_terminator = true) ∧
      ¬(m.is_swap = true ∧ m.is_control_flow = true) ∧
      ¬(m.is_log = true ∧ m.is_terminator = true) ∧
      ¬(m.is_log = true ∧ m.is_control_flow = true) ∧
      ¬(m.is_terminator = true ∧ m.is_control_flow = true) := by
  revert m
  decide

/-- Witness for C7 at the concrete mnemonic `PUSH7`. -/
theorem classification_pairwise_disjoint_witness :
    ¬(Mnemonic.PUSH7.is_push = true ∧ Mnemonic.PUSH7.is_dup = true) :=
  (classification_pairwise_disjoint Mnemonic.PUSH7).1
/-- Claim C8: `is_terminator` holds exactly for `STOP`, `RETURN`,
`REVERT`, `INVALID` and `SELFDESTRUCT`, and `is_control_flow` holds
exactly for `JUMP`, `JUMPI` and `JUMPDEST`. -/
theorem terminator_and_control_flow_exact (m : Mnemonic) :
    (m.is_terminator = true ↔
        m = .STOP ∨ m = .RETURN ∨ m = .REVERT ∨ m = .INVALID ∨
          m = .SELFDESTRUCT) ∧
      (m.is_control_flow = true ↔ m = .JUMP ∨ m = .JUMPI ∨ m = .JUMPDEST) := by
  revert m
  decide

/-- Witness for C8 at the concrete mnemonics `REVERT` and `JUMPI`. -/
theorem terminator_and_control_flow_exact_witness :
    Mnemonic.REVERT.is_terminator = true ∧ Mnemonic.JUMPI.is_control_flow = true :=
  ⟨(terminator_and_control_flow_exact Mnemonic.REVERT).1.mpr (by decide),
    (terminator_and_control_flow_exact Mnemonic.JUMPI).2.mpr (by decide)⟩

/-- Claim C9: the genesis opcode table maps `0x5B` to `JumpDest` and
`0x56` to `Jump`, and a byte to which no active instruction resolves looks
up to `none` — an absent result, not a failure. -/
theorem opcode_table_genesis_lookups :
    opcode_table_as_of 0 0x5B = some (.Fixed .JumpDest) ∧
      opcode_table_as_of 0 0x56 = some (.Fixed .Jump) ∧
      ∀ b : Nat, (∀ i ∈ active_as_of 0, instrByte i ≠ some b) →
        opcode_table_as_of 0 b = none := by
  refine ⟨by decide, by decide, fun b h => ?_⟩
  unfold opcode_table_as_of
  refine List.find?_eq_none.mpr fun i hi => ?_
  simpa [beq_iff_eq] using h i hi

/-- Witness for C9 at the concrete byte `0x5F`: `PUSH0` is not active at
genesis (genesis introduces push widths 1 to 32 only), so the lookup is
absent. -/
theorem opcode_table_genesis_lookups_witness :
    (∀ i ∈ active_as_of 0, instrByte i ≠ some 0x5F) ∧
      opcode_table_as_of 0 0x5F = none :=
  ⟨by decide, opcode_table_genesis_lookups.2.2 0x5F (by decide)⟩

/-- Claim C10: `VARIANTS` is exhaustive (every mnemonic appears) and
duplicate-free, its assigned bytes are strictly increasing along the
array — so index order agrees with byte order even where the index is not
the byte — and its first entry is `STOP` with byte `0x00`. -/
theorem variants_exhaustive_sorted :
    (∀ m : Mnemonic, m ∈ Mnemonic.VARIANTS) ∧
      Mnemonic.VARIANTS.Nodup ∧
      List.Pairwise (fun a b => Mnemonic.into_byte a < Mnemonic.into_byte b)
        Mnemonic.VARIANTS ∧
      Mnemonic.VARIANTS.head? = some .STOP ∧
      Mnemonic.into_byte .STOP = 0x00 := by
  refine ⟨by decide, by decide, by decide, by decide, by decide⟩
